import Mathlib

/-!
Verification of the IGA repository's geometric layout planner, correction-mask
renderer and discrepancy-driven decision logic.

The Python sources are shallowly embedded as follows:
* float arithmetic on coordinates is modelled over `ℚ` where only field
  operations occur (grid paths), and over `ℝ` where transcendental functions
  occur (spiral paths: `math.radians`, `np.pi`, `np.exp`, `math.cos/sin`);
* Python `int` values are modelled as `ℤ` (counts, rows, cols, canvas sizes);
* `range(n)` over a possibly negative bound is `List.range n.toNat`;
* the PIL drawing calls are modelled by recording the exact shapes drawn, in
  drawing order, into a `Mask` value; `PIL.Image.new` rejects negative sizes
  with `ValueError` and accepts zero sizes, which is modelled by `image_new`.
-/

namespace IGA

/-- Curve-type string tested by `geometry.calculate_spiral_positions`. -/
def archimedeanName : String := (r"archimedean")

/-- Default curve type of `geometry.calculate_spiral_positions`. -/
def logarithmicName : String := (r"logarithmic")

/-- Curve-type string that the planner does not recognise, used to observe
the fallback behaviour of the `else` branch. -/
def unknownName : String := (r"cubic")

/-! ## geometry.py : calculate_grid_positions -/

/-- Body of the double loop of `geometry.calculate_grid_positions`: the point
appended for loop indices `(row, col)`, namely
`(start_x + col*(cell_width+spacing) + cell_width/2,
  start_y + row*(cell_height+spacing) + cell_height/2)`. -/
def gridPos (top_left : ℚ × ℚ) (cell_width cell_height spacing : ℚ)
    (row col : ℕ) : ℚ × ℚ :=
  (top_left.1 + (col : ℚ) * (cell_width + spacing) + cell_width / 2,
   top_left.2 + (row : ℚ) * (cell_height + spacing) + cell_height / 2)

/-- Embedding of `geometry.calculate_grid_positions(top_left, rows, cols,
cell_width, cell_height, spacing)`: `for row in range(rows): for col in
range(cols): positions.append(...)`. Python's `range` over a non-positive
bound is empty, hence `Int.toNat`. -/
def calculate_grid_positions (top_left : ℚ × ℚ) (rows cols : ℤ)
    (cell_width cell_height spacing : ℚ) : List (ℚ × ℚ) :=
  (List.range rows.toNat).flatMap (fun row =>
    (List.range cols.toNat).map (fun col =>
      gridPos top_left cell_width cell_height spacing row col))

/-! ## geometry.py : calculate_spiral_positions -/

/-- Denominator `max(1, count - 1)` guarding the parameter division in
`calculate_spiral_positions` (Python `max(1, count - 1)` on ints; for
`count = 0` the Python value is `max(1, -1) = 1`, matching `ℕ` truncated
subtraction). -/
def tDenom (count : ℕ) : ℕ := max 1 (count - 1)

/-- Loop parameter `t = i / max(1, count - 1)` of iteration `i`. -/
def tParam (count i : ℕ) : ℚ := (i : ℚ) / (tDenom count : ℚ)

/-- Embedding of Python `math.radians`. -/
noncomputable def mathRadians (degrees : ℝ) : ℝ := degrees * Real.pi / 180

/-- The `total_angle = turns * 2 * np.pi` of `calculate_spiral_positions`. -/
noncomputable def totalAngle (turns : ℝ) : ℝ := turns * 2 * Real.pi

/-- Angle `theta = start_rad + t * total_angle` of iteration `i`. -/
noncomputable def spiralTheta (start_angle turns : ℝ) (count i : ℕ) : ℝ :=
  mathRadians start_angle + (tParam count i : ℝ) * totalAngle turns

/-- Radius law of iteration `i`: archimedean `a + b * theta`, any other
curve-type string falls into the `else` branch, the logarithmic law
`max(1, a) * exp(b * theta)`. -/
noncomputable def spiralRadius (spiral_type : String) (a b : ℝ)
    (start_angle turns : ℝ) (count i : ℕ) : ℝ :=
  if spiral_type = archimedeanName then
    a + b * spiralTheta start_angle turns count i
  else
    max 1 a * Real.exp (b * spiralTheta start_angle turns count i)

/-- Point appended at iteration `i`:
`(cx + radius * cos(theta), cy + radius * sin(theta))`. -/
noncomputable def spiralPoint (center : ℝ × ℝ) (count : ℕ)
    (spiral_type : String) (a b start_angle turns : ℝ) (i : ℕ) : ℝ × ℝ :=
  (center.1 + spiralRadius spiral_type a b start_angle turns count i *
      Real.cos (spiralTheta start_angle turns count i),
   center.2 + spiralRadius spiral_type a b start_angle turns count i *
      Real.sin (spiralTheta start_angle turns count i))

/-- Embedding of `geometry.calculate_spiral_positions(center, count,
spiral_type, a, b, start_angle, turns)`: the `for i in range(count)` loop. -/
noncomputable def calculate_spiral_positions (center : ℝ × ℝ) (count : ℕ)
    (spiral_type : String) (a b start_angle turns : ℝ) : List (ℝ × ℝ) :=
  (List.range count).map
    (spiralPoint center count spiral_type a b start_angle turns)

/-! ## main.py : mock detector, decision, correction pipeline -/

/-- Embedding of `main.mock_yolo_detect`: the mocked detector always reports
`detected_count = 13`, whatever the image path. -/
def mock_yolo_detect : ℤ := 13

/-- Decision criterion of the pipeline (`main.py`, `if count != target_count`):
correction is needed exactly when the observed count differs from the
expected count. Pure and total on `ℤ`. -/
def needs_correction (observed_count expected_count : ℤ) : Bool :=
  decide (observed_count ≠ expected_count)

/-- Axis-aligned rectangle as drawn by `ImageDraw.rectangle([x1,y1,x2,y2])`. -/
structure Rect where
  x1 : ℚ
  y1 : ℚ
  x2 : ℚ
  y2 : ℚ

/-- Observable trace of one run of `main.correct_image_grid`: the counts that
were compared, whether the failure branch (the correction announcement) ran,
the planned positions, the rectangles drawn into the debug mask, and whether
the mask-save and generation steps executed. -/
structure GridRunTrace where
  observed : ℤ
  target : ℤ
  fail_branch : Bool
  positions : List (ℚ × ℚ)
  mask_shapes : List Rect
  mask_saved : Bool
  generation_invoked : Bool

/-- Embedding of `main.correct_image_grid(image_path, output_path, rows, cols)`.
The detector is the mock (always 13); `target_count = rows * cols`; the grid
is placed with `grid_w = cols * (cell_w + spacing)` (note: the code does not
subtract `spacing` here, unlike `correction.py`); the mask drawing, the mask
save and the generation step are executed unconditionally — the
`count != target_count` test only controls the printed announcement. -/
def correct_image_grid (rows cols : ℤ) : GridRunTrace :=
  let count : ℤ := mock_yolo_detect
  let target_count : ℤ := rows * cols
  let width : ℚ := 1024
  let height : ℚ := 1024
  let cell_w : ℚ := 200
  let spacing : ℚ := 20
  let grid_w : ℚ := (cols : ℚ) * (cell_w + spacing)
  let grid_h : ℚ := (rows : ℚ) * (cell_w + spacing)
  let top_left : ℚ × ℚ := ((width - grid_w) / 2, (height - grid_h) / 2)
  let true_positions :=
    calculate_grid_positions top_left rows cols cell_w cell_w spacing
  let shapes := true_positions.map (fun p =>
    Rect.mk (p.1 - cell_w / 2) (p.2 - cell_w / 2)
            (p.1 + cell_w / 2) (p.2 + cell_w / 2))
  { observed := count
    target := target_count
    fail_branch := needs_correction count target_count
    positions := true_positions
    mask_shapes := shapes
    mask_saved := true
    generation_invoked := true }

/-- Arithmetic mean of a list of points, used to state centring properties. -/
def centroid (ps : List (ℚ × ℚ)) : ℚ × ℚ :=
  ((ps.map Prod.fst).sum / (ps.length : ℚ),
   (ps.map Prod.snd).sum / (ps.length : ℚ))

/-! ## correction.py : CorrectionEngine -/

/-- Errors the Python runtime can raise inside `generate_grid_mask` /
`generate_spiral_mask`: `ValueError` from `PIL.Image.new` on a negative
size, and `ZeroDivisionError` from `width / (cols + 1)` at `cols = -1`. -/
inductive PyError where
  | valueError
  | zeroDivisionError

/-- Boundary model of `PIL.Image.new(mode, (width, height))`: Pillow raises
`ValueError` when either dimension is negative and accepts zero-sized
canvases. -/
def image_new (width height : ℤ) : Except PyError (ℤ × ℤ) :=
  if width < 0 ∨ height < 0 then Except.error PyError.valueError
  else Except.ok (width, height)

/-- Model of Python's true division `a / b`, which raises
`ZeroDivisionError` on a zero divisor. -/
def py_div (a b : ℚ) : Except PyError ℚ :=
  if b = 0 then Except.error PyError.zeroDivisionError
  else Except.ok (a / b)

/-- Value of `cell_w = width / (cols + 1)` of `generate_grid_mask` when the
division succeeds, i.e. when `cols ≠ -1`; `generate_grid_mask` itself guards
this computation with `py_div`, so this total function is only consulted on
the non-raising path. -/
def gridMaskCellW (width cols : ℤ) : ℚ := (width : ℚ) / ((cols : ℚ) + 1)

/-- Top-left offset of `generate_grid_mask`: with `spacing = 20`,
`grid_w = cols * (cell_w + spacing) - spacing` and
`grid_h = rows * (cell_w + spacing) - spacing` (both from `cell_w`), it is
`((width - grid_w)/2, (height - grid_h)/2)`. -/
def gridMaskTopLeft (width height rows cols : ℤ) : ℚ × ℚ :=
  let cell_w : ℚ := gridMaskCellW width cols
  (((width : ℚ) - ((cols : ℚ) * (cell_w + 20) - 20)) / 2,
   ((height : ℚ) - ((rows : ℚ) * (cell_w + 20) - 20)) / 2)

/-- The square outline drawn for grid cell `(i, j)`: half-side
`half = cell_w / 2` around the planned centre. -/
def gridMaskRect (width height rows cols : ℤ) (i j : ℕ) : Rect :=
  let cell_w : ℚ := gridMaskCellW width cols
  let c := gridPos (gridMaskTopLeft width height rows cols) cell_w cell_w 20 i j
  Rect.mk (c.1 - cell_w / 2) (c.2 - cell_w / 2)
          (c.1 + cell_w / 2) (c.2 + cell_w / 2)

/-- Rectangle outlines drawn by `CorrectionEngine.generate_grid_mask`, in
drawing order: one square of side `cell_w` centred at each centre returned by
`calculate_grid_positions` for the auto-centred grid. -/
def gridMaskShapes (width height rows cols : ℤ) : List Rect :=
  let cell_w : ℚ := gridMaskCellW width cols
  let centers := calculate_grid_positions (gridMaskTopLeft width height rows cols)
    rows cols cell_w cell_w 20
  centers.map (fun c =>
    Rect.mk (c.1 - cell_w / 2) (c.2 - cell_w / 2)
            (c.1 + cell_w / 2) (c.2 + cell_w / 2))

/-- Raster mask produced by `generate_grid_mask`: black canvas of the given
size with the drawn rectangle outlines recorded in order. -/
structure Mask where
  width : ℤ
  height : ℤ
  shapes : List Rect

/-- Embedding of `CorrectionEngine.generate_grid_mask(width, height, rows,
cols)`: allocates the canvas via `Image.new` (which may raise `ValueError`),
then computes `cell_w = width / (cols + 1)` (which raises
`ZeroDivisionError` at `cols = -1`, before any drawing), then draws one
square per planned centre and returns the mask; the function itself performs
no dimension validation. -/
def generate_grid_mask (width height rows cols : ℤ) : Except PyError Mask :=
  match image_new width height with
  | Except.error e => Except.error e
  | Except.ok _ =>
      match py_div (width : ℚ) ((cols : ℚ) + 1) with
      | Except.error e => Except.error e
      | Except.ok _ =>
          Except.ok (Mask.mk width height (gridMaskShapes width height rows cols))

/-- Circle outline drawn by `ImageDraw.ellipse([cx-r, cy-r, cx+r, cy+r])`. -/
structure Circle where
  cx : ℝ
  cy : ℝ
  r : ℝ

/-- Circle outlines drawn by `CorrectionEngine.generate_spiral_mask`: one
circle of the fixed item radius 30 at each point of the logarithmic spiral
with `a = 20`, `b = 0.35`, `turns = 2.5` centred on the canvas. -/
noncomputable def spiralMaskCircles (width height : ℤ) (count : ℕ) :
    List Circle :=
  (calculate_spiral_positions ((width : ℝ) / 2, (height : ℝ) / 2) count
      logarithmicName 20 (0.35 : ℝ) 0 (2.5 : ℝ)).map
    (fun p => Circle.mk p.1 p.2 30)

/-- Raster mask produced by `generate_spiral_mask`. -/
structure SpiralMask where
  width : ℤ
  height : ℤ
  circles : List Circle

/-- Embedding of `CorrectionEngine.generate_spiral_mask(width, height,
count)`: allocates the canvas via `Image.new` (which may raise), then draws
one circle per spiral point; no dimension validation of its own. -/
noncomputable def generate_spiral_mask (width height : ℤ) (count : ℕ) :
    Except PyError SpiralMask :=
  match image_new width height with
  | Except.error e => Except.error e
  | Except.ok _ =>
      Except.ok (SpiralMask.mk width height (spiralMaskCircles width height count))

/-! ## geometry.py : generate_mandala_mask -/

/-- Embedding of `geometry.generate_mandala_mask(width, height, axes,
layers)`: the body is `pass`, so the Python function returns `None` for every
input — it draws nothing and raises nothing. -/
def generate_mandala_mask (width height axes : ℤ) (layers : List ℤ) :
    Option Mask :=
  none

/-- Width and height of a drawn rectangle. -/
def rectSize (s : Rect) : ℚ × ℚ := (s.x2 - s.x1, s.y2 - s.y1)

/-- Horizontal gap between the right edge of one rectangle and the left edge
of another; `none` when either is missing. -/
def optGapX : Option Rect → Option Rect → Option ℚ
  | some s, some s' => some (s'.x1 - s.x2)
  | _, _ => none

/-! ## Helper lemmas on row-major double loops -/

/-- Length of a row-major double loop: `n` outer iterations of `m` inner
iterations produce `n * m` elements. -/
theorem range_flatMap_map_length {α : Type} (n m : ℕ) (f : ℕ → ℕ → α) :
    ((List.range n).flatMap (fun r => (List.range m).map (f r))).length
      = n * m := by
  induction n with
  | zero => simp
  | succ k ih =>
      rw [List.range_succ, List.flatMap_append, List.length_append, ih]
      simp [Nat.succ_mul]

/-- Indexing a row-major double loop: element `i * m + j` is the element
produced by outer index `i` and inner index `j`. -/
theorem range_flatMap_map_getElem {α : Type} (n m : ℕ) (f : ℕ → ℕ → α)
    (i j : ℕ) (hi : i < n) (hj : j < m) :
    ((List.range n).flatMap
      (fun r => (List.range m).map (f r)))[i * m + j]? = some (f i j) := by
  induction n with
  | zero => exact absurd hi (Nat.not_lt_zero i)
  | succ k ih =>
      rw [List.range_succ, List.flatMap_append]
      by_cases hik : i < k
      · rw [List.getElem?_append_left]
        · exact ih hik
        · rw [range_flatMap_map_length]
          calc i * m + j < i * m + m := by omega
            _ = (i + 1) * m := by ring
            _ ≤ k * m := Nat.mul_le_mul_right m hik
      · have hik' : i = k := by omega
        subst hik'
        rw [List.getElem?_append_right]
        · rw [range_flatMap_map_length]
          have hidx : i * m + j - i * m = j := by omega
          rw [hidx]
          simp [List.getElem?_map, List.getElem?_range hj]
        · rw [range_flatMap_map_length]
          omega

/-- Indexing the drawn grid-mask shapes: the shape at row-major index
`i * cols + j` is the square for cell `(i, j)`. -/
theorem gridMaskShapes_getElem (width height rows cols : ℤ) (i j : ℕ)
    (hi : i < rows.toNat) (hj : j < cols.toNat) :
    (gridMaskShapes width height rows cols)[i * cols.toNat + j]?
      = some (gridMaskRect width height rows cols i j) := by
  unfold gridMaskShapes calculate_grid_positions
  rw [List.getElem?_map, range_flatMap_map_getElem rows.toNat cols.toNat _
    i j hi hj]
  rfl

/-! ## Claim theorems -/

/-- C1: the claim says a run whose observed count equals the expected count
reaches `Passed`, produces no mask and never invokes generation. The code
violates this: with `rows = 1, cols = 13` the mocked detector's 13 equals
`target_count = 13` and the failure branch is not taken, yet
`correct_image_grid` still renders 13 mask rectangles, saves the mask and runs
the generation step, because those steps are outside the `if`. -/
theorem C1_pipeline_corrects_even_when_counts_match :
    (correct_image_grid 1 13).observed = (correct_image_grid 1 13).target ∧
    (correct_image_grid 1 13).fail_branch = false ∧
    (correct_image_grid 1 13).mask_shapes.length = 13 ∧
    (correct_image_grid 1 13).mask_saved = true ∧
    (correct_image_grid 1 13).generation_invoked = true := by
  decide

/-- C2: `needs_correction` (the `count != target_count` test of `main.py`) is
true exactly when the observed count differs from the expected count; as a
Lean function on `ℤ` it is deterministic, side-effect-free and total, in
particular defined for every non-negative observed count. -/
theorem C2_needs_correction_iff (observed_count expected_count : ℤ)
    (h : 0 ≤ observed_count) :
    needs_correction observed_count expected_count = true ↔
      observed_count ≠ expected_count := by
  simp [needs_correction]

/-- Witness for C2 at the spec's scenario values 13 vs 16. -/
theorem C2_needs_correction_iff_witness :
    0 ≤ (13 : ℤ) ∧
    (needs_correction 13 16 = true ↔ (13 : ℤ) ≠ 16) :=
  ⟨by decide, C2_needs_correction_iff 13 16 (by decide)⟩

/-- C3: for a grid of `r` rows and `c` columns (`r, c ≥ 1`) the planner
returns exactly `r * c` points in row-major order: the point at index
`i * c + j` is the centre of the cell in row `i`, column `j`, i.e.
`(start_x + j*(cell_width+spacing) + cell_width/2,
  start_y + i*(cell_height+spacing) + cell_height/2)`. -/
theorem C3_grid_rowmajor (top_left : ℚ × ℚ) (cw ch spacing : ℚ)
    (r c i j : ℕ) (hr : 1 ≤ r) (hc : 1 ≤ c) (hi : i < r) (hj : j < c) :
    (calculate_grid_positions top_left (r : ℤ) (c : ℤ) cw ch spacing).length
        = r * c ∧
    (calculate_grid_positions top_left (r : ℤ) (c : ℤ) cw ch spacing)[i * c + j]?
        = some (top_left.1 + (j : ℚ) * (cw + spacing) + cw / 2,
                top_left.2 + (i : ℚ) * (ch + spacing) + ch / 2) := by
  unfold calculate_grid_positions
  rw [Int.toNat_natCast, Int.toNat_natCast]
  refine ⟨range_flatMap_map_length r c _, ?_⟩
  have h := range_flatMap_map_getElem r c
    (fun row col => gridPos top_left cw ch spacing row col) i j hi hj
  simpa [gridPos] using h

/-- Witness for C3: a 2 × 3 grid, cell 10 × 6, spacing 2, at index
`1 * 3 + 2`. -/
theorem C3_grid_rowmajor_witness :
    (calculate_grid_positions ((3 : ℚ), (4 : ℚ)) ((2 : ℕ) : ℤ) ((3 : ℕ) : ℤ)
        10 6 2).length = 2 * 3 ∧
    (calculate_grid_positions ((3 : ℚ), (4 : ℚ)) ((2 : ℕ) : ℤ) ((3 : ℕ) : ℤ)
        10 6 2)[1 * 3 + 2]?
      = some (((3 : ℚ), (4 : ℚ)).1 + ((2 : ℕ) : ℚ) * (10 + 2) + 10 / 2,
              ((3 : ℚ), (4 : ℚ)).2 + ((1 : ℕ) : ℚ) * (6 + 2) + 6 / 2) :=
  C3_grid_rowmajor ((3 : ℚ), (4 : ℚ)) 10 6 2 2 3 1 2
    (by decide) (by decide) (by decide) (by decide)

/-- C4: the claim says every grid rendering path centres the grid so that the
centroid of the planned points is the canvas centre. The `main.py` path
computes `grid_w = cols * (cell_w + spacing)` without subtracting `spacing`
(unlike `correction.py` and the spec's centring rule), so at the default run
(`rows = cols = 4`, canvas 1024 × 1024, cell 200, spacing 20) the centroid of
its 16 points is `(502, 502)`, which is not the canvas centre `(512, 512)`:
the grid sits half a spacing off-centre. -/
theorem C4_main_path_centroid_off_center :
    centroid (correct_image_grid 4 4).positions = (502, 502) ∧
    ((502 : ℚ), (502 : ℚ)) ≠ ((1024 : ℚ) / 2, (1024 : ℚ) / 2) := by
  constructor
  · have hr : List.range (Int.toNat 4) = [0, 1, 2, 3] := by decide
    simp only [centroid, correct_image_grid, calculate_grid_positions, gridPos,
      hr, List.flatMap_cons, List.flatMap_nil, List.map_cons, List.map_nil,
      List.append_nil, List.cons_append, List.nil_append, List.sum_cons,
      List.sum_nil, List.length_cons, List.length_nil]
    norm_num
  · intro h
    have hx := congrArg Prod.fst h
    norm_num at hx

/-- C9: the grid planner is total over all integer `rows` and `cols`: for any
non-positive `rows` or `cols`, Python's `range` is empty, so
`calculate_grid_positions` silently returns the empty list instead of
signalling invalid geometry. -/
theorem C9_grid_nonpositive_rows_cols_empty (top_left : ℚ × ℚ)
    (rows cols : ℤ) (cw ch spacing : ℚ) (h : rows ≤ 0 ∨ cols ≤ 0) :
    calculate_grid_positions top_left rows cols cw ch spacing = [] := by
  unfold calculate_grid_positions
  rcases h with h | h
  · rw [Int.toNat_of_nonpos h]
    simp
  · rw [Int.toNat_of_nonpos h]
    simp

/-- Witness for C9 at `rows = -3, cols = 5`. -/
theorem C9_grid_nonpositive_rows_cols_empty_witness :
    calculate_grid_positions ((0 : ℚ), (0 : ℚ)) (-3) 5 1 1 0 = [] :=
  C9_grid_nonpositive_rows_cols_empty ((0 : ℚ), (0 : ℚ)) (-3) 5 1 1 0
    (Or.inl (by decide))

/-- C5 counterexample: the claim says canvas width ≤ 0 raises
`InvalidGeometry` and produces no output image, but `generate_grid_mask`
performs no validation: at width 0 (which Pillow accepts, and where
`cell_w = 0/(4+1)` succeeds) it returns a degenerate mask, with all 16
zero-sized squares drawn. -/
theorem C5_zero_width_mask_still_produced :
    generate_grid_mask 0 1024 4 4
      = Except.ok (Mask.mk 0 1024 (gridMaskShapes 0 1024 4 4)) := by
  norm_num [generate_grid_mask, image_new, py_div]

/-- C5 amended: the renderers contain no `InvalidGeometry` check. The only
failures on a render call are runtime errors met along the way, each before
any drawing: the raster library's `ValueError` at canvas allocation, for a
negative canvas dimension only, and `ZeroDivisionError` from
`cell_w = width / (cols + 1)` at `cols = -1`. Zero canvas dimensions and the
non-positive pattern dimensions derived from them are accepted silently and
a mask is returned. -/
theorem C5_render_error_behaviour (width height rows cols : ℤ) (count : ℕ) :
    (width < 0 ∨ height < 0 →
      generate_grid_mask width height rows cols
          = Except.error PyError.valueError ∧
      generate_spiral_mask width height count
          = Except.error PyError.valueError) ∧
    (0 ≤ width → 0 ≤ height →
      (cols = -1 →
        generate_grid_mask width height rows cols
          = Except.error PyError.zeroDivisionError) ∧
      (cols ≠ -1 →
        generate_grid_mask width height rows cols
          = Except.ok (Mask.mk width height
              (gridMaskShapes width height rows cols))) ∧
      generate_spiral_mask width height count
          = Except.ok (SpiralMask.mk width height
              (spiralMaskCircles width height count))) := by
  constructor
  · intro h
    constructor <;>
      simp [generate_grid_mask, generate_spiral_mask, image_new, if_pos h]
  · intro hw hh
    have h : ¬ (width < 0 ∨ height < 0) := by omega
    refine ⟨?_, ?_, ?_⟩
    · intro hc
      subst hc
      norm_num [generate_grid_mask, image_new, py_div, h]
    · intro hc
      have hc' : (cols : ℚ) + 1 ≠ 0 := by
        intro h0
        apply hc
        have h1 : (cols : ℚ) = -1 := by linarith
        exact_mod_cast h1
      simp [generate_grid_mask, image_new, py_div, h, hc']
    · simp [generate_spiral_mask, image_new, h]

/-- Witness for C5 at a negative canvas, at the `cols = -1` division error,
and at a non-negative canvas with a valid column count. -/
theorem C5_render_error_behaviour_witness :
    generate_grid_mask (-1) 5 4 4 = Except.error PyError.valueError ∧
    generate_grid_mask 10 10 4 (-1) = Except.error PyError.zeroDivisionError ∧
    generate_grid_mask 2 3 4 4
      = Except.ok (Mask.mk 2 3 (gridMaskShapes 2 3 4 4)) :=
  ⟨((C5_render_error_behaviour (-1) 5 4 4 0).1 (Or.inl (by decide))).1,
   ((C5_render_error_behaviour 10 10 4 (-1) 0).2 (by decide) (by decide)).1 rfl,
   ((C5_render_error_behaviour 2 3 4 4 0).2 (by decide) (by decide)).2.1
     (by decide)⟩

/-- C6 counterexample: the claim says an unimplemented pattern or curve type
fails with `UnsupportedPattern`; instead, the spiral planner's `else` branch
silently treats the unknown curve type as logarithmic (same points, no
error), and the mandala generator returns `None`. -/
theorem C6_unknown_type_defaults_counterexample :
    calculate_spiral_positions ((0 : ℝ), (0 : ℝ)) 2 unknownName 20
        (0.35 : ℝ) 0 2
      = calculate_spiral_positions ((0 : ℝ), (0 : ℝ)) 2 logarithmicName 20
        (0.35 : ℝ) 0 2 ∧
    generate_mandala_mask 1024 1024 12 [] = none := by
  refine ⟨?_, rfl⟩
  have hp : spiralPoint ((0 : ℝ), (0 : ℝ)) 2 unknownName 20 (0.35 : ℝ) 0 2
      = spiralPoint ((0 : ℝ), (0 : ℝ)) 2 logarithmicName 20 (0.35 : ℝ) 0 2 := by
    funext i
    unfold spiralPoint spiralRadius
    rw [if_neg (by decide), if_neg (by decide)]
  rw [calculate_spiral_positions, calculate_spiral_positions, hp]

/-- C6 amended: there is no `UnsupportedPattern` error anywhere in the code.
Any curve-type string other than the archimedean one falls into the `else`
branch and yields exactly the logarithmic spiral (silent default), and the
Radial/Mandala generator is a placeholder whose body is `pass`: it returns
`None` for every input instead of failing. -/
theorem C6_unknown_pattern_silent_default (center : ℝ × ℝ) (count : ℕ)
    (spiral_type : String) (a b start_angle turns : ℝ)
    (width height axes : ℤ) (layers : List ℤ)
    (h : spiral_type ≠ archimedeanName) :
    calculate_spiral_positions center count spiral_type a b start_angle turns
      = calculate_spiral_positions center count logarithmicName a b
          start_angle turns ∧
    generate_mandala_mask width height axes layers = none := by
  refine ⟨?_, rfl⟩
  have hp : spiralPoint center count spiral_type a b start_angle turns
      = spiralPoint center count logarithmicName a b start_angle turns := by
    funext i
    unfold spiralPoint spiralRadius
    rw [if_neg h, if_neg (by decide)]
  rw [calculate_spiral_positions, calculate_spiral_positions, hp]

/-- Witness for C6 at a concrete unknown curve-type string. -/
theorem C6_unknown_pattern_silent_default_witness :
    calculate_spiral_positions ((1 : ℝ), (2 : ℝ)) 3 unknownName 20
        (0.35 : ℝ) 0 2
      = calculate_spiral_positions ((1 : ℝ), (2 : ℝ)) 3 logarithmicName 20
        (0.35 : ℝ) 0 2 ∧
    generate_mandala_mask 640 480 12 [] = none :=
  C6_unknown_pattern_silent_default ((1 : ℝ), (2 : ℝ)) 3 unknownName 20
    (0.35 : ℝ) 0 2 640 480 12 [] (by decide)

/-- C7: the parameter divisor `max(1, count - 1)` is never zero for any
`count ≥ 1`, and a spiral spec with `count = 1` yields exactly one point, at
parameter `t = 0`, whose angle is the start angle converted to radians. -/
theorem C7_spiral_single_point (center : ℝ × ℝ) (spiral_type : String)
    (a b start_angle turns : ℝ) (count : ℕ) (hcount : 1 ≤ count) :
    tDenom count ≠ 0 ∧
    (count = 1 →
      calculate_spiral_positions center count spiral_type a b start_angle turns
        = [spiralPoint center count spiral_type a b start_angle turns 0] ∧
      tParam count 0 = 0 ∧
      spiralTheta start_angle turns count 0 = mathRadians start_angle) := by
  constructor
  · have h1 : 1 ≤ tDenom count := le_max_left 1 (count - 1)
    omega
  · intro hc
    subst hc
    refine ⟨?_, ?_, ?_⟩
    · have hr1 : List.range 1 = [0] := by decide
      simp [calculate_spiral_positions, hr1]
    · simp [tParam]
    · simp [spiralTheta, tParam]

/-- Witness for C7 at the default logarithmic parameters with one point. -/
theorem C7_spiral_single_point_witness :
    tDenom 1 ≠ 0 ∧
    calculate_spiral_positions ((0 : ℝ), (0 : ℝ)) 1 logarithmicName 20
        (0.35 : ℝ) 0 2
      = [spiralPoint ((0 : ℝ), (0 : ℝ)) 1 logarithmicName 20 (0.35 : ℝ) 0 2 0] ∧
    tParam 1 0 = 0 ∧
    spiralTheta 0 2 1 0 = mathRadians 0 := by
  have h := C7_spiral_single_point ((0 : ℝ), (0 : ℝ)) logarithmicName 20
    (0.35 : ℝ) 0 2 1 (by decide)
  exact ⟨h.1, (h.2 rfl).1, (h.2 rfl).2.1, (h.2 rfl).2.2⟩

/-- C8 counterexample: the claim says consecutive theta is strictly
increasing for every spiral spec with `count ≥ 2`, but with `turns = 0`
(and start angle 0) the two consecutive angles are both 0: theta is not
strictly increasing. -/
theorem C8_zero_turns_theta_not_increasing :
    ¬ (spiralTheta 0 0 2 0 < spiralTheta 0 0 2 1) := by
  simp [spiralTheta, mathRadians, totalAngle]

/-- C8 amended: for `count ≥ 2` and positive `turns` (the code leaves `turns`
unconstrained; it is 2 or 2.5 at every call site), consecutive points have
strictly increasing theta, and for the logarithmic curve type with `b ≥ 0`
the radius of consecutive points is non-decreasing. -/
theorem C8_spiral_theta_radius_monotone (start_angle turns a b : ℝ)
    (count i : ℕ) (hcount : 2 ≤ count) (hi : i + 1 < count)
    (hturns : 0 < turns) :
    spiralTheta start_angle turns count i
        < spiralTheta start_angle turns count (i + 1) ∧
    (0 ≤ b →
      spiralRadius logarithmicName a b start_angle turns count i ≤
        spiralRadius logarithmicName a b start_angle turns count (i + 1)) := by
  have hd : (0 : ℝ) < ((tDenom count : ℚ) : ℝ) := by
    have h1 : 1 ≤ tDenom count := le_max_left 1 (count - 1)
    have h2 : (1 : ℝ) ≤ ((tDenom count : ℚ) : ℝ) := by exact_mod_cast h1
    linarith
  have ht : ((tParam count i : ℚ) : ℝ) < ((tParam count (i + 1) : ℚ) : ℝ) := by
    unfold tParam
    push_cast
    refine (div_lt_div_iff_of_pos_right ?_).mpr ?_
    · exact_mod_cast hd
    · exact_mod_cast Nat.lt_succ_self i
  have htot : (0 : ℝ) < totalAngle turns := by
    unfold totalAngle
    positivity
  have hθ : spiralTheta start_angle turns count i
      < spiralTheta start_angle turns count (i + 1) := by
    unfold spiralTheta
    exact add_lt_add_left (mul_lt_mul_of_pos_right ht htot) _
  refine ⟨hθ, fun hb => ?_⟩
  unfold spiralRadius
  rw [if_neg (by decide), if_neg (by decide)]
  have hmax : (0 : ℝ) < max 1 a := lt_of_lt_of_le zero_lt_one (le_max_left 1 a)
  exact mul_le_mul_of_nonneg_left
    (Real.exp_le_exp.mpr (mul_le_mul_of_nonneg_left (le_of_lt hθ) hb))
    (le_of_lt hmax)

/-- Witness for C8 with two points, one positive turn, `a = b = 0`. -/
theorem C8_spiral_theta_radius_monotone_witness :
    spiralTheta 0 1 2 0 < spiralTheta 0 1 2 1 ∧
    spiralRadius logarithmicName 0 0 0 1 2 0 ≤
      spiralRadius logarithmicName 0 0 0 1 2 1 := by
  have h := C8_spiral_theta_radius_monotone 0 1 0 0 2 0
    (by decide) (by decide) (by norm_num)
  exact ⟨h.1, h.2 (by norm_num)⟩

/-- C10: every shape drawn by the grid-mask renderer is a square of side
`width / (cols + 1)` — a formula in the canvas width and column count only,
so the canvas height and the row count never influence the drawn size — and
horizontally adjacent squares are separated by the fixed 20-pixel spacing:
the gap between the right edge of the square for cell `(i, j)` and the left
edge of the square for cell `(i, j+1)` is exactly 20. -/
theorem C10_grid_mask_cell_size (width height rows cols : ℤ) (i j : ℕ)
    (hcols : 0 ≤ cols) (hi : i < rows.toNat) (hj : j < cols.toNat) :
    Option.map rectSize
        ((gridMaskShapes width height rows cols)[i * cols.toNat + j]?)
      = some ((width : ℚ) / ((cols : ℚ) + 1), (width : ℚ) / ((cols : ℚ) + 1)) ∧
    (j + 1 < cols.toNat →
      optGapX ((gridMaskShapes width height rows cols)[i * cols.toNat + j]?)
          ((gridMaskShapes width height rows cols)[i * cols.toNat + (j + 1)]?)
        = some 20) := by
  constructor
  · rw [gridMaskShapes_getElem width height rows cols i j hi hj]
    simp only [Option.map_some', rectSize, gridMaskRect, gridMaskCellW, gridPos,
      Option.some.injEq, Prod.mk.injEq]
    constructor <;> ring
  · intro hj1
    rw [gridMaskShapes_getElem width height rows cols i j hi hj,
      gridMaskShapes_getElem width height rows cols i (j + 1) hi hj1]
    simp only [optGapX, gridMaskRect, gridMaskCellW, gridPos, Option.some.injEq]
    push_cast
    ring

/-- Witness for C10 on a 1024 × 768 canvas with a 4 × 4 grid at cell
`(1, 2)`. -/
theorem C10_grid_mask_cell_size_witness :
    Option.map rectSize
        ((gridMaskShapes 1024 768 4 4)[1 * (4 : ℤ).toNat + 2]?)
      = some (((1024 : ℤ) : ℚ) / (((4 : ℤ) : ℚ) + 1),
              ((1024 : ℤ) : ℚ) / (((4 : ℤ) : ℚ) + 1)) ∧
    optGapX ((gridMaskShapes 1024 768 4 4)[1 * (4 : ℤ).toNat + 2]?)
        ((gridMaskShapes 1024 768 4 4)[1 * (4 : ℤ).toNat + (2 + 1)]?)
      = some 20 := by
  have h := C10_grid_mask_cell_size 1024 768 4 4 1 2
    (by decide) (by decide) (by decide)
  exact ⟨h.1, h.2 (by decide)⟩

end IGA
